import Mathlib

/-!
Verification development for the animated-PNG conversion pipeline of the
`blog-assets` repository.  The definitions below are a shallow embedding of
the JavaScript sources:

* `src/apng2gif.v2.js` — the fallback orchestrator `apngToGif`, the
  external-tool strategy `tryFfmpeg`, the in-process strategy
  `tryUpngGifwrap`, and the helpers `ffmpegUnimplemented`, `isPngSigBuf`,
  `toCS`;
* `src/unnamed/part_003` — the near-duplicate in-process converter
  `apngArrayBufferToGifBuffer` / `convertApngToGif` with `toCentis` and the
  `colorCount` palette clamp;
* the sibling-path derivations of `src/apng2gif.v2.js`,
  `src/unnamed/part_002` and `src/apng2gif.js`.

External collaborators (the upng-js decoder, the gifwrap encoder, the
ffmpeg and apng2gif command-line tools, the Node `path` module) are modelled
as explicit oracle/behaviour parameters or as faithful Lean definitions of
the library functions actually called.  Byte buffers are `List Nat`,
strings are Lean `String`s, and the effects of one conversion run (which
strategies were attempted, which writes reached the destination file,
whether the palette temporary was unlinked) are returned as explicit trace
components.
-/

namespace BlogAssets

/-! ## JavaScript string containment

`String.prototype.includes` used by `ffmpegUnimplemented`
(src/apng2gif.v2.js lines 16-24): `s.includes(sub)` is true exactly when
`sub` occurs contiguously inside `s`. -/

/-- Scan of a haystack for a contiguous occurrence of `needle`. -/
def charSearch (needle : List Char) : List Char → Bool
  | [] => needle.isEmpty
  | c :: rest => needle.isPrefixOf (c :: rest) || charSearch needle rest

/-- Model of JavaScript `s.includes(sub)`. -/
def jsIncludes (s sub : String) : Bool :=
  charSearch sub.data s.data

/-! ## Helpers of src/apng2gif.v2.js (lines 15-28) -/

/-- `ffmpegUnimplemented` (src/apng2gif.v2.js lines 16-24): recognises the
stderr diagnostics that signal "the tool rejected this input, fall back"
rather than a fatal encoding error. -/
def ffmpegUnimplemented (stderr : String) : Bool :=
  jsIncludes stderr "Not yet implemented in FFmpeg" ||
  jsIncludes stderr "In-stream tag" ||
  jsIncludes stderr "unspecified pixel format" ||
  jsIncludes stderr "Could not find codec parameters" ||
  jsIncludes stderr "Invalid data found when processing input"

/-- The 8-byte PNG signature (src/apng2gif.v2.js line 25, src/unnamed/part_003
line 73). -/
def PNG_SIG : List Nat := [0x89, 0x50, 0x4E, 0x47, 0x0D, 0x0A, 0x1A, 0x0A]

/-- `isPngSigBuf` (src/apng2gif.v2.js line 26): the buffer is at least 8
bytes long and its first 8 bytes equal the PNG signature.  Identical to
`isPngSig` of src/unnamed/part_003 line 74. -/
def isPngSigBuf (buf : List Nat) : Bool :=
  decide (buf.length ≥ 8) && (buf.take 8 == PNG_SIG)

/-- `toCS` (src/apng2gif.v2.js line 28):
`(ms) => Math.max(1, Math.round((ms || 0) / 10))`.  For a natural-number
duration, JavaScript `Math.round(ms / 10)` equals `(ms + 5) / 10` in
truncating natural division. -/
def toCS (ms : Nat) : Nat := max 1 ((ms + 5) / 10)

/-- `toCentis` (src/unnamed/part_003 lines 80-86): clamps the millisecond
delay to `maxFrameDelayMs` when that bound is given, then converts to
centiseconds with a floor of 1. -/
def toCentis (delayMs : Nat) (maxFrameDelayMs : Option Nat) : Nat :=
  let ms := match maxFrameDelayMs with
    | some m => min delayMs m
    | none => delayMs
  max 1 ((ms + 5) / 10)

/-! ## The upng-js / gifwrap collaborator model -/

/-- One entry of `img.frames` as used by the sources: only the `delay`
field is read (`img.frames[i]?.delay || 0`); `none` models an absent or
undefined delay. -/
structure FrameMeta where
  delay : Option Nat
deriving DecidableEq, Repr

/-- The decoded image object returned by upng-js `decode`: `width`,
`height` and the animation-control array `frames` (empty for a static
image). -/
structure UpngImage where
  width : Nat
  height : Nat
  frames : List FrameMeta
deriving DecidableEq, Repr

/-- Outcome of the external `decode` call: it can throw, return an object
without numeric width/height (the `invalid-meta` guard), or return a
decoded image. -/
inductive DecodeResult where
  | throws (msg : String)
  | badMeta
  | ok (img : UpngImage)
deriving DecidableEq, Repr

/-- A gifwrap `GifFrame`: bitmap dimensions, RGBA byte data, and the GIF
delay in centiseconds. -/
structure GifFrame where
  width : Nat
  height : Nat
  data : List Nat
  delayCentisecs : Nat
deriving DecidableEq, Repr

/-- The options object handed to the gifwrap `Gif` constructor; only the
fields the sources vary are modelled (`colorScope: 'per-frame'` is a
constant in both sources). -/
structure GifwrapOptions where
  loopCount : Nat
  maxColors : Nat
deriving DecidableEq, Repr

/-- Oracle bundling the three external upng-js / gifwrap calls performed by
the in-process strategies: `decode`, `toRGBA8`, and gifwrap construction
plus `encode` (which yields the encoded GIF bytes or throws). -/
structure UpngOracle where
  decode : List Nat → DecodeResult
  toRGBA8 : UpngImage → Except String (List (List Nat))
  encode : List GifFrame → GifwrapOptions → Except String (List Nat)

/-- Structured failure taxonomy of the in-process conversion paths; each
constructor corresponds to one `throw` site of src/apng2gif.v2.js lines
71-129 (equivalently src/unnamed/part_003 lines 94-178). -/
inductive ConvError where
  | notAPngSignature
  | decodeFailed (msg : String)
  | invalidMeta
  | toRGBA8Failed (msg : String)
  | rgbaMismatch (frames rgba : Nat)
  | staticBadRgba
  | buildFrameFailed (i : Nat)
  | noValidFrames
  | encodeFailed (msg : String)
deriving DecidableEq, Repr

/-- The `onFrameError` option: `'throw'` (fail the whole attempt) or
`'skip'` (drop the offending frame).  `throwMode` renders the source's
`'throw'`. -/
inductive FrameErrorMode where
  | throwMode
  | skip
deriving DecidableEq, Repr

/-- Options of `tryUpngGifwrap` (src/apng2gif.v2.js line 71) with the
source's defaults. -/
structure UpngGifwrapOpts where
  loopCount : Nat := 0
  maxFrameDelayMs : Option Nat := none
  onFrameError : FrameErrorMode := .throwMode
deriving DecidableEq, Repr

/-- One iteration body of the frame loop of `tryUpngGifwrap`
(src/apng2gif.v2.js lines 106-111): look up `rgbaFrames[i]`, reject it
unless its length is `w*h*4`, read `img.frames[i]?.delay || 0`, clamp by
`maxFrameDelayMs` when given, and build the `GifFrame` with `toCS` of the
clamped delay. -/
def buildFrameV2 (w h : Nat) (meta : List FrameMeta) (rgbaFrames : List (List Nat))
    (maxFrameDelayMs : Option Nat) (i : Nat) : Except ConvError GifFrame :=
  match rgbaFrames.get? i with
  | none => .error (.buildFrameFailed i)
  | some rgba =>
    if rgba.length ≠ w * h * 4 then .error (.buildFrameFailed i)
    else
      let delayMs := ((meta.get? i).bind (·.delay)).getD 0
      let d := match maxFrameDelayMs with
        | some m => min delayMs m
        | none => delayMs
      .ok { width := w, height := h, data := rgba, delayCentisecs := toCS d }

/-- The frame loop of `tryUpngGifwrap` (src/apng2gif.v2.js lines 105-116)
over a list of indices: a failed frame is skipped when
`onFrameError = skip` and aborts the attempt otherwise. -/
def buildFramesV2 (w h : Nat) (meta : List FrameMeta) (rgbaFrames : List (List Nat))
    (maxFrameDelayMs : Option Nat) (onFrameError : FrameErrorMode) :
    List Nat → Except ConvError (List GifFrame)
  | [] => .ok []
  | i :: rest =>
    match buildFrameV2 w h meta rgbaFrames maxFrameDelayMs i with
    | .ok f =>
      match buildFramesV2 w h meta rgbaFrames maxFrameDelayMs onFrameError rest with
      | .ok fs => .ok (f :: fs)
      | .error e => .error e
    | .error e =>
      match onFrameError with
      | .skip => buildFramesV2 w h meta rgbaFrames maxFrameDelayMs onFrameError rest
      | .throwMode => .error e

/-- `tryUpngGifwrap` (src/apng2gif.v2.js lines 71-129).  `file` is the byte
content read from `apngPath`.  On success the model returns the frame list
handed to gifwrap together with the encoded bytes written to `outGifPath`
— the observable effect of the strategy; every `throw` of the source is an
`.error`.  The destination write of line 123 happens exactly when this
function returns `.ok`. -/
def tryUpngGifwrap (o : UpngOracle) (file : List Nat) (opts : UpngGifwrapOpts) :
    Except ConvError (List GifFrame × List Nat) :=
  if isPngSigBuf file = false then .error .notAPngSignature
  else
    match o.decode file with
    | .throws msg => .error (.decodeFailed msg)
    | .badMeta => .error .invalidMeta
    | .ok img =>
      match o.toRGBA8 img with
      | .error msg => .error (.toRGBA8Failed msg)
      | .ok rgbaFrames =>
        let frameCount := img.frames.length
        if rgbaFrames.length ≠ max 1 frameCount then
          .error (.rgbaMismatch frameCount rgbaFrames.length)
        else
          let framesE : Except ConvError (List GifFrame) :=
            if frameCount = 0 then
              match rgbaFrames.get? 0 with
              | none => .error .staticBadRgba
              | some rgba =>
                if rgba.length ≠ img.width * img.height * 4 then .error .staticBadRgba
                else .ok [{ width := img.width, height := img.height,
                            data := rgba, delayCentisecs := 10 }]
            else
              match buildFramesV2 img.width img.height img.frames rgbaFrames
                  opts.maxFrameDelayMs opts.onFrameError (List.range frameCount) with
              | .error e => .error e
              | .ok fs => if fs.length = 0 then .error .noValidFrames else .ok fs
          match framesE with
          | .error e => .error e
          | .ok frames =>
            match o.encode frames { loopCount := opts.loopCount, maxColors := 256 } with
            | .error msg => .error (.encodeFailed msg)
            | .ok gifBytes => .ok (frames, gifBytes)

/-! ## The in-process converter of src/unnamed/part_003 -/

/-- `GifOptions` of src/unnamed/part_003 lines 65-71 with the source's
defaults.  The source field `repeat` is rendered `loopRepeat` because
`repeat` is a Lean keyword. -/
structure GifOptions where
  loopRepeat : Nat := 0
  colorCount : Nat := 256
  maxFrameDelayMs : Option Nat := none
  onFrameError : FrameErrorMode := .throwMode
deriving DecidableEq, Repr

/-- The palette bound handed to gifwrap by src/unnamed/part_003 line 169:
`Math.max(2, Math.min(256, colorCount))`. -/
def gifwrapMaxColors (colorCount : Nat) : Nat :=
  max 2 (min 256 colorCount)

/-- One iteration body of the frame loop of `apngArrayBufferToGifBuffer`
(src/unnamed/part_003 lines 143-150): like `buildFrameV2` but with the
delay computed by `toCentis (f.delay || 0) maxFrameDelayMs`. -/
def buildFrameP3 (w h : Nat) (meta : List FrameMeta) (rgbaFrames : List (List Nat))
    (maxFrameDelayMs : Option Nat) (i : Nat) : Except ConvError GifFrame :=
  match rgbaFrames.get? i with
  | none => .error (.buildFrameFailed i)
  | some rgba =>
    if rgba.length ≠ w * h * 4 then .error (.buildFrameFailed i)
    else
      let delayMs := ((meta.get? i).bind (·.delay)).getD 0
      .ok { width := w, height := h, data := rgba,
            delayCentisecs := toCentis delayMs maxFrameDelayMs }

/-- The frame loop of `apngArrayBufferToGifBuffer` (src/unnamed/part_003
lines 141-158). -/
def buildFramesP3 (w h : Nat) (meta : List FrameMeta) (rgbaFrames : List (List Nat))
    (maxFrameDelayMs : Option Nat) (onFrameError : FrameErrorMode) :
    List Nat → Except ConvError (List GifFrame)
  | [] => .ok []
  | i :: rest =>
    match buildFrameP3 w h meta rgbaFrames maxFrameDelayMs i with
    | .ok f =>
      match buildFramesP3 w h meta rgbaFrames maxFrameDelayMs onFrameError rest with
      | .ok fs => .ok (f :: fs)
      | .error e => .error e
    | .error e =>
      match onFrameError with
      | .skip => buildFramesP3 w h meta rgbaFrames maxFrameDelayMs onFrameError rest
      | .throwMode => .error e

/-- `apngArrayBufferToGifBuffer` (src/unnamed/part_003 lines 94-178):
APNG bytes to encoded GIF bytes, with the `colorCount` clamp of line 169
and the `repeat === 0 ? 0 : repeat` loop count of line 167. -/
def apngArrayBufferToGifBuffer (o : UpngOracle) (ab : List Nat) (opts : GifOptions) :
    Except ConvError (List Nat) :=
  match o.decode ab with
  | .throws msg => .error (.decodeFailed msg)
  | .badMeta => .error .invalidMeta
  | .ok img =>
    match o.toRGBA8 img with
    | .error msg => .error (.toRGBA8Failed msg)
    | .ok rgbaFrames =>
      let frameCount := img.frames.length
      if rgbaFrames.length ≠ max 1 frameCount then
        .error (.rgbaMismatch frameCount rgbaFrames.length)
      else
        let framesE : Except ConvError (List GifFrame) :=
          if frameCount = 0 then
            match rgbaFrames.get? 0 with
            | none => .error .staticBadRgba
            | some rgba =>
              if rgba.length ≠ img.width * img.height * 4 then .error .staticBadRgba
              else .ok [{ width := img.width, height := img.height,
                          data := rgba, delayCentisecs := 10 }]
          else
            match buildFramesP3 img.width img.height img.frames rgbaFrames
                opts.maxFrameDelayMs opts.onFrameError (List.range frameCount) with
            | .error e => .error e
            | .ok fs => if fs.length = 0 then .error .noValidFrames else .ok fs
        match framesE with
        | .error e => .error e
        | .ok gifFrames =>
          match o.encode gifFrames
              { loopCount := if opts.loopRepeat = 0 then 0 else opts.loopRepeat,
                maxColors := gifwrapMaxColors opts.colorCount } with
          | .error msg => .error (.encodeFailed msg)
          | .ok gifBytes => .ok gifBytes

/-- `convertApngToGif` (src/unnamed/part_003 lines 186-200): read the file
(`buf` is its content), reject a non-PNG signature, convert, write.  The
source re-wraps every failure in a `[convertApngToGif]` message; the model
keeps the structured error. -/
def convertApngToGif (o : UpngOracle) (buf : List Nat) (opts : GifOptions) :
    Except ConvError (List Nat) :=
  if isPngSigBuf buf = false then .error .notAPngSignature
  else apngArrayBufferToGifBuffer o buf opts

/-! ## The external-tool strategy and its effect trace
(src/apng2gif.v2.js lines 30-68)

The two `execFile('ffmpeg', ...)` invocations are external collaborators:
`FfmpegBehavior` fixes their outcomes for one run.  The `paletteuse` pass
is handed `outGifPath` directly (`'-y', outGifPath`, line 57), so whether
and how it touches the destination file is the tool's doing, not this
code's: `useWritesDest`/`useDestComplete` model the state the failed tool
leaves at the destination, and a successful pass means a complete
destination file was produced.  `unlinkFails` models the outcome of the
best-effort `fs.unlink(palette).catch(() => {})` of line 66. -/

/-- Outcome of one external process invocation. -/
inductive ExecResult where
  | ok
  | fail (stderr : String)
deriving DecidableEq, Repr

/-- Behaviour of the two ffmpeg invocations of one `tryFfmpeg` run. -/
structure FfmpegBehavior where
  palettegen : ExecResult
  paletteuse : ExecResult
  useWritesDest : Bool := false
  useDestComplete : Bool := false
  unlinkFails : Bool := false
deriving DecidableEq, Repr

/-- Who wrote to the destination file. -/
inductive WriterTag where
  | ffmpegTool
  | inProcess
  | apng2gifTool
deriving DecidableEq, Repr

/-- One write observed at the destination path; `complete = false` records
an incomplete file left behind by a failed external tool. -/
structure DestWrite where
  writer : WriterTag
  complete : Bool
deriving DecidableEq, Repr

/-- Decidable equality for `Except`, used to evaluate run traces on
concrete inputs. -/
instance instDecEqExcept {ε α : Type} [DecidableEq ε] [DecidableEq α] :
    DecidableEq (Except ε α)
  | .error e, .error f =>
    if h : e = f then .isTrue (congrArg _ h)
    else .isFalse (fun k => h (Except.error.inj k))
  | .error _, .ok _ => .isFalse Except.noConfusion
  | .ok _, .error _ => .isFalse Except.noConfusion
  | .ok a, .ok b =>
    if h : a = b then .isTrue (congrArg _ h)
    else .isFalse (fun k => h (Except.ok.inj k))

/-- The error message thrown by the catch blocks of `tryFfmpeg`
(src/apng2gif.v2.js lines 44-48 and 61-64): the recoverable
`'ffmpeg-not-implemented'` signal when `ffmpegUnimplemented` matches the
stderr text, a fatal stage-specific message otherwise. -/
def classifyFfmpegError (stage : String) (stderr : String) : String :=
  if ffmpegUnimplemented stderr then "ffmpeg-not-implemented"
  else "ffmpeg " ++ stage ++ " failed: " ++ stderr

/-- Observable outcome of one `tryFfmpeg` run: the result, each attempted
palette unlink (recording whether that unlink failed), and the writes that
reached the destination file. -/
structure FfmpegRun where
  result : Except String Unit
  unlinkAttempts : List Bool
  destWrites : List DestWrite
deriving DecidableEq, Repr

/-- `tryFfmpeg` (src/apng2gif.v2.js lines 30-68).  The palettegen pass has
no `finally`: when it fails the function throws at line 47 without ever
reaching the unlink of line 66.  The paletteuse pass runs inside
`try/catch/finally`, so the unlink is attempted on both its success and
failure, and its own failure is swallowed by `.catch(() => {})` (it
appears in the trace but never in the result). -/
def tryFfmpeg (b : FfmpegBehavior) : FfmpegRun :=
  match b.palettegen with
  | .fail stderr =>
    { result := .error (classifyFfmpegError "palettegen" stderr),
      unlinkAttempts := [], destWrites := [] }
  | .ok =>
    match b.paletteuse with
    | .ok =>
      { result := .ok (), unlinkAttempts := [b.unlinkFails],
        destWrites := [{ writer := .ffmpegTool, complete := true }] }
    | .fail stderr =>
      { result := .error (classifyFfmpegError "paletteuse" stderr),
        unlinkAttempts := [b.unlinkFails],
        destWrites := if b.useWritesDest then
            [{ writer := .ffmpegTool, complete := b.useDestComplete }] else [] }

/-- Behaviour of the external `apng2gif` converter (src/apng2gif.v2.js
lines 132-137): it too is handed the destination path directly, so a
failed run may leave an incomplete destination file. -/
structure ToolBehavior where
  res : ExecResult
  failWritesDest : Bool := false
  failDestComplete : Bool := false
deriving DecidableEq, Repr

/-- The three fallback strategies in their documented order. -/
inductive Strategy where
  | ffmpeg
  | upngGifwrap
  | apng2gif
deriving DecidableEq, Repr

/-- Observable outcome of one `apngToGif` run: the returned/thrown result,
the strategies attempted in order, and the writes that reached the
destination file. -/
structure OrchRun where
  result : Except String String
  attempted : List Strategy
  destWrites : List DestWrite
deriving DecidableEq, Repr

/-- `apngToGif` (src/apng2gif.v2.js lines 143-185): try ffmpeg, then
upng+gifwrap, then apng2gif; return `{ out: outGifPath }` on the first
success; when all three fail, throw an error carrying the last strategy's
message (line 183).  `upng` is the outcome of the `tryUpngGifwrap` call of
lines 167-171; its destination write (line 123 of the source) happens
exactly when it returns `.ok`. -/
def apngToGif (ff : FfmpegBehavior) (upng : Except ConvError (List GifFrame × List Nat))
    (ap : ToolBehavior) (outGifPath : String) : OrchRun :=
  let f := tryFfmpeg ff
  match f.result with
  | .ok _ =>
    { result := .ok outGifPath, attempted := [.ffmpeg], destWrites := f.destWrites }
  | .error _ =>
    match upng with
    | .ok _ =>
      { result := .ok outGifPath, attempted := [.ffmpeg, .upngGifwrap],
        destWrites := f.destWrites ++ [{ writer := .inProcess, complete := true }] }
    | .error _ =>
      match ap.res with
      | .ok =>
        { result := .ok outGifPath, attempted := [.ffmpeg, .upngGifwrap, .apng2gif],
          destWrites := f.destWrites ++ [{ writer := .apng2gifTool, complete := true }] }
      | .fail msg =>
        { result := .error ("[apng2gif] failed: " ++ msg),
          attempted := [.ffmpeg, .upngGifwrap, .apng2gif],
          destWrites := f.destWrites ++ (if ap.failWritesDest then
              [{ writer := .apng2gifTool, complete := ap.failDestComplete }] else []) }

/-! ## The sibling-path derivation

Model of the Node `path` (posix) functions used by `apngToGifSibling`
(src/apng2gif.v2.js lines 188-193), `apngToWebpSibling`
(src/unnamed/part_002 lines 54-59) and `convertApngVariantToGif`
(src/apng2gif.js lines 48-53 and src/unnamed/part_003 lines 207-212).
These definitions are pure: the derivation performs no filesystem or
network access. -/

/-- The characters after the last occurrence of `c` (the whole list when
`c` does not occur). -/
def afterLastChar (c : Char) (l : List Char) : List Char :=
  (l.reverse.takeWhile (fun x => x != c)).reverse

/-- The characters before the last occurrence of `c`. -/
def beforeLastChar (c : Char) (l : List Char) : List Char :=
  ((l.reverse.dropWhile (fun x => x != c)).drop 1).reverse

/-- Node `path.posix.dirname` for paths whose final segment is a plain
file name: everything before the last `/`, with the special cases `"."`
(no slash) and `"/"` (root-level file). -/
def pathDirname (p : String) : String :=
  if p.data.contains '/' then
    let pre := beforeLastChar '/' p.data
    if pre.isEmpty then "/" else ⟨pre⟩
  else "."

/-- Node `path.posix.extname`: the suffix of the base name from its last
`.`, empty when the base name has no dot or only a leading dot. -/
def pathExtname (p : String) : String :=
  let b := afterLastChar '/' p.data
  if b.contains '.' then
    if (beforeLastChar '.' b).isEmpty then ""
    else ⟨'.' :: afterLastChar '.' b⟩
  else ""

/-- Node `path.posix.basename(p, ext)`: the part after the last `/`, with
a trailing `ext` stripped when it is a proper suffix of the base name. -/
def pathBasename (p : String) (ext : String) : String :=
  let b := afterLastChar '/' p.data
  if !ext.data.isEmpty && ext.data != b && ext.data.isSuffixOf b then
    ⟨b.take (b.length - ext.data.length)⟩
  else ⟨b⟩

/-- Node `path.posix.join` of a directory and a file name. -/
def pathJoin (a b : String) : String :=
  if a = "" ∨ a = "." then b
  else if a.data.getLast? = some '/' then a ++ b
  else a ++ "/" ++ b

/-- The destination path computed by `apngToGifSibling` (src/apng2gif.v2.js
lines 189-191): `path.join(dir, base + '.gif')` with
`dir = path.dirname(p)` and `base = path.basename(p, path.extname(p))`. -/
def apngToGifSiblingPath (apngFileAbs : String) : String :=
  let dir := pathDirname apngFileAbs
  let base := pathBasename apngFileAbs (pathExtname apngFileAbs)
  pathJoin dir (base ++ ".gif")

/-- The destination path computed by `apngToWebpSibling`
(src/unnamed/part_002 lines 55-57): same derivation with `.webp`. -/
def apngToWebpSiblingPath (apngFileAbs : String) : String :=
  let dir := pathDirname apngFileAbs
  let base := pathBasename apngFileAbs (pathExtname apngFileAbs)
  pathJoin dir (base ++ ".webp")

/-- The destination path computed by `convertApngVariantToGif`
(src/apng2gif.js lines 49-51, identically src/unnamed/part_003 lines
208-210). -/
def convertApngVariantToGifPath (apngFileAbs : String) : String :=
  let dir := pathDirname apngFileAbs
  let base := pathBasename apngFileAbs (pathExtname apngFileAbs)
  pathJoin dir (base ++ ".gif")

/-! ## Concrete fixtures

Small concrete inputs used to evaluate the embedded pipeline on closed
instances: an 8-byte file that is exactly the PNG signature, a 1×1
two-frame animated decode with one malformed pixel buffer, and a 1×1
static decode. -/

/-- A byte buffer that is exactly the PNG signature. -/
def demoFile : List Nat := PNG_SIG

/-- A 1×1 two-frame decoded image (frame delays 20 ms and 30 ms). -/
def demoImgSkip : UpngImage :=
  { width := 1, height := 1, frames := [{ delay := some 20 }, { delay := some 30 }] }

/-- Pixel buffers for `demoImgSkip`: frame 0 is well-sized (4 bytes),
frame 1 is malformed (1 byte). -/
def demoRgbaSkip : List (List Nat) := [[1, 2, 3, 4], [9]]

/-- Oracle decoding any buffer to `demoImgSkip`, with an encoder that
always succeeds with a fixed byte. -/
def demoOracleSkip : UpngOracle :=
  { decode := fun _ => .ok demoImgSkip,
    toRGBA8 := fun _ => .ok demoRgbaSkip,
    encode := fun _ _ => .ok [0] }

/-- A 1×1 static decoded image (no animation frames). -/
def demoImgStatic : UpngImage := { width := 1, height := 1, frames := [] }

/-- The single well-sized pixel buffer of the static decode. -/
def demoRgbaStatic : List Nat := [10, 20, 30, 40]

/-- Oracle decoding any buffer to `demoImgStatic`, with an encoder that
always succeeds with a fixed byte. -/
def demoOracleStatic : UpngOracle :=
  { decode := fun _ => .ok demoImgStatic,
    toRGBA8 := fun _ => .ok [demoRgbaStatic],
    encode := fun _ _ => .ok [0] }

/-- A 1×1 two-frame decode in which every pixel buffer is malformed. -/
def demoRgbaAllBad : List (List Nat) := [[9], []]

/-- Oracle for the all-frames-malformed scenario. -/
def demoOracleAllBad : UpngOracle :=
  { decode := fun _ => .ok demoImgSkip,
    toRGBA8 := fun _ => .ok demoRgbaAllBad,
    encode := fun _ _ => .ok [0] }

/-! ## General lemmas -/

/-- `charSearch` finds `needle` exactly when it is a contiguous infix of
the haystack. -/
theorem charSearch_iff (needle : List Char) :
    ∀ hay : List Char, charSearch needle hay = true ↔ needle <:+: hay := by
  intro hay
  induction hay with
  | nil => simp [charSearch, List.isEmpty_iff, List.infix_nil]
  | cons c rest ih =>
    simp [charSearch, Bool.or_eq_true, List.isPrefixOf_iff_prefix, ih,
      List.infix_cons_iff]

/-- `jsIncludes` agrees with infix containment on the character data. -/
theorem jsIncludes_iff (s sub : String) :
    jsIncludes s sub = true ↔ sub.data <:+: s.data :=
  charSearch_iff sub.data s.data

/-- The PNG-signature check in propositional form. -/
theorem isPngSigBuf_iff (buf : List Nat) :
    isPngSigBuf buf = true ↔ 8 ≤ buf.length ∧ buf.take 8 = PNG_SIG := by
  simp [isPngSigBuf, Bool.and_eq_true, decide_eq_true_iff]

/-! ## C3 — duration conversion -/

/-- C3: the GIF delay is computed by first clamping the millisecond
duration to `maxFrameDurationMs` when given, then converting to
centiseconds with a floor of one unit: `toCentis d (some m)` equals the
v2 path's `toCS (min d m)`, the result is never zero (so a 0 ms duration
yields a positive display time), and 2500 ms clamped at 1000 ms converts
to 100 centiseconds. -/
theorem toCentis_clamp_then_floor :
    ∀ (d m : Nat),
      toCentis d (some m) = toCS (min d m) ∧
      toCentis d none = toCS d ∧
      1 ≤ toCentis d (some m) ∧
      1 ≤ toCS d ∧
      toCS 0 = 1 ∧
      toCentis 0 (some m) = 1 ∧
      toCentis 2500 (some 1000) = 100 := by
  intro d m
  refine ⟨rfl, rfl, le_max_left 1 _, le_max_left 1 _, by decide, ?_, by decide⟩
  simp [toCentis]

/-! ## C1 — the fallback chain of the orchestrator -/

/-- C1: strategies are attempted in the fixed order ffmpeg →
upng+gifwrap → apng2gif; the first success returns immediately with no
later strategy attempted; every failure advances to the next strategy;
and only when all three have failed does the orchestrator surface a
terminal error carrying the last strategy's message. -/
theorem apngToGif_fallback_order :
    ∀ (ff : FfmpegBehavior) (upng : Except ConvError (List GifFrame × List Nat))
      (ap : ToolBehavior) (p : String),
      ((tryFfmpeg ff).result.isOk = true →
        apngToGif ff upng ap p =
          { result := .ok p, attempted := [.ffmpeg],
            destWrites := (tryFfmpeg ff).destWrites }) ∧
      ((tryFfmpeg ff).result.isOk = false → upng.isOk = true →
        apngToGif ff upng ap p =
          { result := .ok p, attempted := [.ffmpeg, .upngGifwrap],
            destWrites := (tryFfmpeg ff).destWrites ++
              [{ writer := .inProcess, complete := true }] }) ∧
      ((tryFfmpeg ff).result.isOk = false → upng.isOk = false → ap.res = .ok →
        (apngToGif ff upng ap p).result = .ok p ∧
        (apngToGif ff upng ap p).attempted = [.ffmpeg, .upngGifwrap, .apng2gif]) ∧
      (∀ msg, (tryFfmpeg ff).result.isOk = false → upng.isOk = false →
        ap.res = .fail msg →
        (apngToGif ff upng ap p).result = .error ("[apng2gif] failed: " ++ msg) ∧
        (apngToGif ff upng ap p).attempted = [.ffmpeg, .upngGifwrap, .apng2gif]) := by
  intro ff upng ap p
  cases hf : (tryFfmpeg ff).result <;> cases hu : upng <;> cases ha : ap.res <;>
    simp [apngToGif, hf, ha, Except.isOk, Except.toBool]

/-- Witness for C1: a run in which all three strategies fail surfaces the
last strategy's message, having attempted all three in order. -/
theorem apngToGif_fallback_order_witness :
    (apngToGif { palettegen := .fail "genboom", paletteuse := .ok }
        (.error .noValidFrames) { res := .fail "toolboom" } "out.gif").result =
      .error ("[apng2gif] failed: " ++ "toolboom") ∧
    (apngToGif { palettegen := .fail "genboom", paletteuse := .ok }
        (.error .noValidFrames) { res := .fail "toolboom" } "out.gif").attempted =
      [.ffmpeg, .upngGifwrap, .apng2gif] :=
  (apngToGif_fallback_order { palettegen := .fail "genboom", paletteuse := .ok }
      (.error .noValidFrames) { res := .fail "toolboom" } "out.gif").2.2.2
    "toolboom" (by decide) (by decide) (by decide)

/-! ## C8 — palette temporary cleanup (corrected) -/

/-- C8 counterexample: an invocation whose palettegen pass fails is a
failure path of the strategy on which the palette-file removal is never
attempted, refuting "removed on both the success path and the failure
path" for every invocation. -/
theorem tryFfmpeg_no_unlink_on_palettegen_failure :
    (tryFfmpeg { palettegen := .fail "boom", paletteuse := .ok }).result.isOk = false ∧
    (tryFfmpeg { palettegen := .fail "boom", paletteuse := .ok }).unlinkAttempts = [] := by
  decide

/-- C8 amended: on every invocation whose palettegen pass succeeds the
palette unlink is attempted — on both the success and the failure of the
paletteuse pass — and it is best-effort: the unlink outcome changes
neither the strategy result nor the destination writes.  When palettegen
itself fails, the strategy returns without attempting removal. -/
theorem tryFfmpeg_unlink_best_effort :
    ∀ (b : FfmpegBehavior),
      (b.palettegen = .ok → (tryFfmpeg b).unlinkAttempts = [b.unlinkFails]) ∧
      (∀ s, b.palettegen = .fail s → (tryFfmpeg b).unlinkAttempts = []) ∧
      (∀ u, (tryFfmpeg { b with unlinkFails := u }).result = (tryFfmpeg b).result ∧
        (tryFfmpeg { b with unlinkFails := u }).destWrites = (tryFfmpeg b).destWrites) := by
  intro b
  obtain ⟨gen, use, w, c, u⟩ := b
  cases gen <;> cases use <;> simp [tryFfmpeg]

/-- Witness for the amended C8 theorem: a concrete run with a failing
paletteuse pass and a failing unlink still attempts the unlink, and the
result is the same as with a succeeding unlink. -/
theorem tryFfmpeg_unlink_best_effort_witness :
    (tryFfmpeg { palettegen := .ok, paletteuse := .fail "x", unlinkFails := true }).unlinkAttempts = [true] ∧
    (tryFfmpeg { { palettegen := .ok, paletteuse := .fail "x", unlinkFails := true : FfmpegBehavior } with unlinkFails := true }).result =
      (tryFfmpeg { palettegen := .ok, paletteuse := .fail "x", unlinkFails := true }).result :=
  ⟨(tryFfmpeg_unlink_best_effort { palettegen := .ok, paletteuse := .fail "x", unlinkFails := true }).1 (by decide),
   ((tryFfmpeg_unlink_best_effort { palettegen := .ok, paletteuse := .fail "x", unlinkFails := true }).2.2 true).1⟩

/-! ## C7 — destination writes (corrected) -/

/-- C7 counterexample: the paletteuse pass is handed the destination path
directly; when the tool fails after writing an incomplete file there, the
conversion can fail overall while incomplete output from a failed
strategy remains at the destination — refuting "the destination is only
created on success and no partial output from a failed strategy is left
in place". -/
theorem apngToGif_incomplete_dest_on_failure :
    apngToGif
        { palettegen := .ok, paletteuse := .fail "Error while filtering", useWritesDest := true, useDestComplete := false }
        (.error .noValidFrames) { res := .fail "no frames" } "out.gif" =
      { result := .error ("[apng2gif] failed: " ++ "no frames"), attempted := [.ffmpeg, .upngGifwrap, .apng2gif], destWrites := [{ writer := .ffmpegTool, complete := false }] } := by
  decide

/-- C7 amended: the in-process strategy writes the destination only after
its in-memory encode succeeds — every destination write it contributes is
a complete file and occurs only when that strategy succeeded — and, as
long as the external tools leave nothing at the destination when they
fail, a failed conversion leaves no destination write at all.  The code
itself never removes output an external tool left behind. -/
theorem apngToGif_inProcess_writes_only_on_success :
    ∀ (ff : FfmpegBehavior) (upng : Except ConvError (List GifFrame × List Nat))
      (ap : ToolBehavior) (p : String),
      (∀ w ∈ (apngToGif ff upng ap p).destWrites, w.writer = .inProcess →
        w.complete = true ∧ upng.isOk = true) ∧
      (ff.useWritesDest = false → ap.failWritesDest = false →
        (apngToGif ff upng ap p).result.isOk = false →
        (apngToGif ff upng ap p).destWrites = []) := by
  intro ff upng ap p
  obtain ⟨gen, use, wd, dc, ul⟩ := ff
  cases gen <;> cases use <;> cases upng <;> cases ha : ap.res <;>
    simp [apngToGif, tryFfmpeg, ha, Except.isOk, Except.toBool] <;>
    cases wd <;> simp_all [Except.isOk, Except.toBool]

/-- Witness for the amended C7 theorem: in a concrete failing run whose
external tools leave nothing behind, the destination receives no write. -/
theorem apngToGif_inProcess_writes_only_on_success_witness :
    (apngToGif { palettegen := .fail "g", paletteuse := .ok }
        (.error .noValidFrames) { res := .fail "t" } "out.gif").destWrites = [] :=
  (apngToGif_inProcess_writes_only_on_success
      { palettegen := .fail "g", paletteuse := .ok }
      (.error .noValidFrames) { res := .fail "t" } "out.gif").2
    (by decide) (by decide) (by decide)

/-! ## C4 — stderr classification -/

/-- The fatal stage message can never collide with the recoverable
`'ffmpeg-not-implemented'` signal: they differ at the seventh character. -/
theorem ffmpeg_fatal_message_ne :
    ∀ (stage stderr : String),
      "ffmpeg " ++ stage ++ " failed: " ++ stderr ≠ "ffmpeg-not-implemented" := by
  intro stage stderr h
  have h2 := congrArg String.data h
  rw [String.data_append, String.data_append, String.data_append] at h2
  have e1 : ("ffmpeg " : String).data = ['f', 'f', 'm', 'p', 'e', 'g', ' '] := rfl
  rw [e1, List.append_assoc, List.append_assoc] at h2
  have h3 := congrArg (List.take 7) h2
  rw [List.take_left'
    (show (['f', 'f', 'm', 'p', 'e', 'g', ' '] : List Char).length = 7 from rfl)] at h3
  exact absurd h3 (by decide)

/-- C4: a failed external-tool invocation is classified as the recoverable
fall-back signal exactly when its stderr contains one of the five
documented diagnostic substrings; in particular, with such a stderr the
orchestrator goes on to attempt the in-process strategy. -/
theorem ffmpeg_error_classification :
    ∀ (stderr : String),
      (ffmpegUnimplemented stderr = true ↔
        ("Not yet implemented in FFmpeg" : String).data <:+: stderr.data ∨
        ("In-stream tag" : String).data <:+: stderr.data ∨
        ("unspecified pixel format" : String).data <:+: stderr.data ∨
        ("Could not find codec parameters" : String).data <:+: stderr.data ∨
        ("Invalid data found when processing input" : String).data <:+: stderr.data) ∧
      (∀ stage, classifyFfmpegError stage stderr = "ffmpeg-not-implemented" ↔
        ffmpegUnimplemented stderr = true) ∧
      (∀ (ff : FfmpegBehavior) (upng : Except ConvError (List GifFrame × List Nat))
          (ap : ToolBehavior) (p : String),
        ff.palettegen = .ok → ff.paletteuse = .fail stderr →
        Strategy.upngGifwrap ∈ (apngToGif ff upng ap p).attempted) := by
  intro stderr
  refine ⟨?_, ?_, ?_⟩
  · simp [ffmpegUnimplemented, Bool.or_eq_true, jsIncludes_iff, or_assoc]
  · intro stage
    by_cases hu : ffmpegUnimplemented stderr <;>
      simp [classifyFfmpegError, hu, ffmpeg_fatal_message_ne]
  · intro ff upng ap p hgen huse
    have hres : (tryFfmpeg ff).result =
        .error (classifyFfmpegError "paletteuse" stderr) := by
      simp [tryFfmpeg, hgen, huse]
    cases upng <;> cases ha : ap.res <;> simp [apngToGif, hres, ha]

/-- Witness for C4: a stderr equal to the documented "Invalid data found
when processing input" diagnostic is classified as the recoverable
signal, and the orchestrator proceeds to the in-process strategy. -/
theorem ffmpeg_error_classification_witness :
    classifyFfmpegError "palettegen" "Invalid data found when processing input" =
      "ffmpeg-not-implemented" ∧
    Strategy.upngGifwrap ∈
      (apngToGif { palettegen := .ok, paletteuse := .fail "Invalid data found when processing input" }
        (.error .noValidFrames) { res := .ok } "out.gif").attempted := by
  obtain ⟨-, hb, hc⟩ :=
    ffmpeg_error_classification "Invalid data found when processing input"
  exact ⟨(hb "palettegen").mpr (by decide),
    hc { palettegen := .ok, paletteuse := .fail "Invalid data found when processing input" }
      (.error .noValidFrames) { res := .ok } "out.gif" rfl rfl⟩

/-! ## C9 — sibling path derivation -/

/-- Splitting at the last occurrence: the part after it. -/
theorem afterLastChar_eq (c : Char) (l1 l2 : List Char) (h : c ∉ l2) :
    afterLastChar c (l1 ++ c :: l2) = l2 := by
  have hall : ∀ a ∈ l2.reverse, (a != c) = true := by
    intro a ha
    rw [List.mem_reverse] at ha
    simp only [bne_iff_ne, ne_eq]
    exact fun hac => h (hac ▸ ha)
  unfold afterLastChar
  rw [List.reverse_append, List.reverse_cons, List.append_assoc,
    List.singleton_append, List.takeWhile_append_of_pos hall,
    List.takeWhile_cons]
  simp

/-- Splitting at the last occurrence: the part before it. -/
theorem beforeLastChar_eq (c : Char) (l1 l2 : List Char) (h : c ∉ l2) :
    beforeLastChar c (l1 ++ c :: l2) = l1 := by
  have hall : ∀ a ∈ l2.reverse, (a != c) = true := by
    intro a ha
    rw [List.mem_reverse] at ha
    simp only [bne_iff_ne, ne_eq]
    exact fun hac => h (hac ▸ ha)
  unfold beforeLastChar
  rw [List.reverse_append, List.reverse_cons, List.append_assoc,
    List.singleton_append, List.dropWhile_append_of_pos hall,
    List.dropWhile_cons]
  simp

/-- A list of the form `l1 ++ c :: l2` contains `c`. -/
theorem contains_append_cons (c : Char) (l1 l2 : List Char) :
    (l1 ++ c :: l2).contains c = true := by
  simp [List.contains, List.elem_iff]

/-- C9: for a source path `dir/stem.ext` (plain directory prefix, nonempty
stem, extension free of dots and slashes), all three sibling entry points
derive the destination as the same directory, same stem, and the target
format's extension; the derivation is a pure function of the path
string. -/
theorem sibling_path_derivation :
    ∀ (dir stem e : String),
      stem.data ≠ [] → dir.data ≠ [] → dir ≠ "." →
      dir.data.getLast? ≠ some '/' →
      '/' ∉ stem.data → '/' ∉ e.data → '.' ∉ e.data →
      apngToGifSiblingPath (dir ++ "/" ++ stem ++ "." ++ e) =
        dir ++ "/" ++ stem ++ ".gif" ∧
      apngToWebpSiblingPath (dir ++ "/" ++ stem ++ "." ++ e) =
        dir ++ "/" ++ stem ++ ".webp" ∧
      convertApngVariantToGifPath (dir ++ "/" ++ stem ++ "." ++ e) =
        dir ++ "/" ++ stem ++ ".gif" := by
  intro dir stem e hstem hdir hdirdot hdirlast hs he hde
  set p := dir ++ "/" ++ stem ++ "." ++ e with hp
  have hslash : ("/" : String).data = ['/'] := rfl
  have hdot : ("." : String).data = ['.'] := rfl
  have hpdata : p.data = dir.data ++ '/' :: (stem.data ++ '.' :: e.data) := by
    simp [hp, String.data_append, hslash, hdot]
  have hnoslash : '/' ∉ stem.data ++ '.' :: e.data := by
    intro hmem
    rcases List.mem_append.mp hmem with h | h
    · exact hs h
    · rcases List.mem_cons.mp h with h | h
      · exact absurd h (by decide)
      · exact he h
  have hdir1 : pathDirname p = dir := by
    simp only [pathDirname]
    rw [hpdata, contains_append_cons, beforeLastChar_eq _ _ _ hnoslash]
    simp [List.isEmpty_iff, hdir]
  have hext : pathExtname p = ⟨'.' :: e.data⟩ := by
    simp only [pathExtname]
    rw [hpdata, afterLastChar_eq _ _ _ hnoslash, contains_append_cons,
      beforeLastChar_eq _ _ _ hde, afterLastChar_eq _ _ _ hde]
    simp [List.isEmpty_iff, hstem]
  have hbase : pathBasename p ⟨'.' :: e.data⟩ = stem := by
    simp only [pathBasename]
    rw [hpdata, afterLastChar_eq _ _ _ hnoslash]
    have c2 : (('.' :: e.data : List Char) != (stem.data ++ '.' :: e.data)) = true := by
      simp only [bne_iff_ne, ne_eq]
      intro heq
      have hlen := congrArg List.length heq
      rw [List.length_cons, List.length_append, List.length_cons] at hlen
      exact hstem (List.length_eq_zero.mp (by omega))
    have c3 : (('.' :: e.data : List Char).isSuffixOf (stem.data ++ '.' :: e.data)) = true := by
      rw [List.isSuffixOf_iff_suffix]
      exact List.suffix_append _ _
    rw [c2, c3]
    have hlen : (stem.data ++ '.' :: e.data).length - ('.' :: e.data).length =
        stem.data.length := by
      rw [List.length_append, List.length_cons]
      omega
    simp only [List.isEmpty_cons, Bool.not_false, Bool.true_and, Bool.and_self, if_true]
    rw [hlen, List.take_left]
  have hjoin : ∀ t : String, pathJoin dir t = dir ++ "/" ++ t := by
    intro t
    simp only [pathJoin]
    have h1 : ¬(dir = "" ∨ dir = ".") := by
      rintro (h | h)
      · exact hdir (congrArg String.data h)
      · exact hdirdot h
    rw [if_neg h1, if_neg hdirlast]
  have hassoc : ∀ t : String, dir ++ "/" ++ (stem ++ t) = dir ++ "/" ++ stem ++ t := by
    intro t
    exact String.ext (by simp [String.data_append, List.append_assoc])
  have hcore : ∀ t : String,
      pathJoin (pathDirname p) (pathBasename p (pathExtname p) ++ t) =
        dir ++ "/" ++ stem ++ t := by
    intro t
    rw [hdir1, hext, hbase, hjoin (stem ++ t)]
    exact hassoc t
  exact ⟨by simpa only [apngToGifSiblingPath] using hcore ".gif",
    by simpa only [apngToWebpSiblingPath] using hcore ".webp",
    by simpa only [convertApngVariantToGifPath] using hcore ".gif"⟩

/-- Witness for C9: the documented example — an `_animation.png` source
maps to the sibling `.gif` (respectively `.webp`). -/
theorem sibling_path_derivation_witness :
    apngToGifSiblingPath "/packs/foo_animation.png" = "/packs/foo_animation.gif" ∧
    apngToWebpSiblingPath "/packs/foo_animation.png" = "/packs/foo_animation.webp" ∧
    convertApngVariantToGifPath "/packs/foo_animation.png" = "/packs/foo_animation.gif" := by
  obtain ⟨h1, h2, h3⟩ := sibling_path_derivation "/packs" "foo_animation" "png"
    (by decide) (by decide) (by decide) (by decide) (by decide) (by decide) (by decide)
  have e1 : ("/packs" ++ "/" ++ "foo_animation" ++ "." ++ "png" : String) =
      "/packs/foo_animation.png" := by decide
  have e2 : ("/packs" ++ "/" ++ "foo_animation" ++ ".gif" : String) =
      "/packs/foo_animation.gif" := by decide
  have e3 : ("/packs" ++ "/" ++ "foo_animation" ++ ".webp" : String) =
      "/packs/foo_animation.webp" := by decide
  rw [e1, e2] at h1
  rw [e1, e3] at h2
  rw [e1, e2] at h3
  exact ⟨h1, h2, h3⟩

/-! ## The in-process pipeline: shape lemmas -/

/-- Complement counting: the elements failing a test and those passing it
partition the list. -/
theorem countP_not_add {α : Type} (p : α → Bool) (l : List α) :
    l.countP (fun a => !(p a)) + l.countP p = l.length := by
  induction l with
  | nil => simp
  | cons a l ih =>
    simp only [List.countP_cons, List.length_cons]
    cases p a <;> simp <;> omega

/-- In skip mode the frame loop never fails: it returns exactly the frames
whose build succeeded, in order. -/
theorem buildFramesV2_skip (w h : Nat) (meta : List FrameMeta)
    (rgbaFrames : List (List Nat)) (clamp : Option Nat) :
    ∀ ixs : List Nat,
      buildFramesV2 w h meta rgbaFrames clamp .skip ixs =
        .ok (ixs.filterMap (fun i => (buildFrameV2 w h meta rgbaFrames clamp i).toOption)) := by
  intro ixs
  induction ixs with
  | nil => rfl
  | cons i rest ih =>
    cases hb : buildFrameV2 w h meta rgbaFrames clamp i <;>
      simp [buildFramesV2, hb, ih, Except.toOption, List.filterMap_cons]

/-- A frame build succeeds exactly when the pixel buffer at that index has
the expected `w*h*4` length. -/
theorem buildFrameV2_toOption_isSome (w h : Nat) (meta : List FrameMeta)
    (rgbaFrames : List (List Nat)) (clamp : Option Nat) (i : Nat)
    (hi : i < rgbaFrames.length) :
    (buildFrameV2 w h meta rgbaFrames clamp i).toOption.isSome =
      (rgbaFrames[i].length == w * h * 4) := by
  have hget : rgbaFrames.get? i = some rgbaFrames[i] := by
    rw [List.get?_eq_getElem?, List.getElem?_eq_getElem hi]
  simp only [buildFrameV2, hget]
  split
  · next hne => simp [Except.toOption, hne]
  · next hne => simp [Except.toOption, not_not.mp hne]

/-- Counting the successful frame builds over an index range equals
counting the well-sized pixel buffers. -/
theorem buildFrames_count_range' (w h : Nat) (meta : List FrameMeta)
    (rgbaFrames : List (List Nat)) (clamp : Option Nat) :
    ∀ (k s : Nat), s + k ≤ rgbaFrames.length →
      ((List.range' s k).filterMap
          (fun i => (buildFrameV2 w h meta rgbaFrames clamp i).toOption)).length =
        ((rgbaFrames.drop s).take k).countP (fun r => r.length == w * h * 4) := by
  intro k
  induction k with
  | zero => intro s _; simp
  | succ k ih =>
    intro s hs
    have hslt : s < rgbaFrames.length := by omega
    rw [List.range'_succ, List.drop_eq_getElem_cons hslt, List.take_succ_cons,
      List.filterMap_cons, List.countP_cons]
    have hsome := buildFrameV2_toOption_isSome w h meta rgbaFrames clamp s hslt
    cases hb : (buildFrameV2 w h meta rgbaFrames clamp s).toOption with
    | none =>
      rw [hb] at hsome
      rw [ih (s + 1) (by omega), ← hsome]
      simp
    | some fr =>
      rw [hb] at hsome
      rw [List.length_cons, ih (s + 1) (by omega), ← hsome]
      simp

/-- In skip mode the frame loop over all indices succeeds and keeps exactly
the frames whose pixel buffer has the expected size. -/
theorem buildFramesV2_skip_count (w h : Nat) (meta : List FrameMeta)
    (rgbaFrames : List (List Nat)) (clamp : Option Nat) :
    ∃ fs, buildFramesV2 w h meta rgbaFrames clamp .skip (List.range rgbaFrames.length) = .ok fs ∧
      fs.length = rgbaFrames.countP (fun r => r.length == w * h * 4) := by
  refine ⟨_, buildFramesV2_skip w h meta rgbaFrames clamp (List.range rgbaFrames.length), ?_⟩
  rw [List.range_eq_range', buildFrames_count_range' w h meta rgbaFrames clamp
    rgbaFrames.length 0 (by omega)]
  simp

/-- The only error a single frame build can raise names its own index. -/
theorem buildFrameV2_error_eq (w h : Nat) (meta : List FrameMeta)
    (rgbaFrames : List (List Nat)) (clamp : Option Nat) (i : Nat) (e : ConvError)
    (hb : buildFrameV2 w h meta rgbaFrames clamp i = .error e) :
    e = .buildFrameFailed i := by
  simp only [buildFrameV2] at hb
  split at hb
  · simp at hb
    exact hb.symm
  · split at hb
    · simp at hb
      exact hb.symm
    · simp at hb

/-- Every error of the v2 frame loop names the offending frame index. -/
theorem buildFramesV2_error_shape (w h : Nat) (meta : List FrameMeta)
    (rgbaFrames : List (List Nat)) (clamp : Option Nat) (mode : FrameErrorMode) :
    ∀ (ixs : List Nat) (e : ConvError),
      buildFramesV2 w h meta rgbaFrames clamp mode ixs = .error e →
      ∃ i, e = .buildFrameFailed i := by
  intro ixs
  induction ixs with
  | nil => intro e he; exact absurd he (by simp [buildFramesV2])
  | cons i rest ih =>
    intro e he
    rw [buildFramesV2] at he
    cases hb : buildFrameV2 w h meta rgbaFrames clamp i with
    | ok f =>
      rw [hb] at he
      cases hr : buildFramesV2 w h meta rgbaFrames clamp mode rest with
      | ok fs => rw [hr] at he; exact absurd he (by simp)
      | error e2 => rw [hr] at he; simp at he; exact he ▸ ih e2 hr
    | error e2 =>
      rw [hb] at he
      cases mode with
      | skip => exact ih e he
      | throwMode =>
        simp at he
        exact ⟨i, he ▸ buildFrameV2_error_eq w h meta rgbaFrames clamp i e2 hb⟩

/-- Pipeline shape, animated input, successful frame loop with a nonempty
result: the conversion reduces to the gifwrap encode call on the built
frames. -/
theorem tryUpngGifwrap_animated_ok (o : UpngOracle) (file : List Nat)
    (opts : UpngGifwrapOpts) (img : UpngImage) (rgbaFrames : List (List Nat))
    (fs : List GifFrame)
    (hsig : isPngSigBuf file = true)
    (hdec : o.decode file = .ok img)
    (hr : o.toRGBA8 img = .ok rgbaFrames)
    (hn : img.frames.length ≠ 0)
    (hlen : rgbaFrames.length = img.frames.length)
    (hbf : buildFramesV2 img.width img.height img.frames rgbaFrames
        opts.maxFrameDelayMs opts.onFrameError (List.range img.frames.length) = .ok fs)
    (hfs : fs.length ≠ 0) :
    tryUpngGifwrap o file opts =
      match o.encode fs { loopCount := opts.loopCount, maxColors := 256 } with
      | .error m => .error (.encodeFailed m)
      | .ok b => .ok (fs, b) := by
  have hmax : ¬(rgbaFrames.length ≠ max 1 img.frames.length) := by omega
  simp only [tryUpngGifwrap, hsig, hdec, hr, hbf, hmax, hn, hfs,
    Bool.true_eq_false, if_false, ite_false, reduceIte]

/-- Pipeline shape, animated input, failed frame loop: the conversion
surfaces the loop's error. -/
theorem tryUpngGifwrap_animated_err (o : UpngOracle) (file : List Nat)
    (opts : UpngGifwrapOpts) (img : UpngImage) (rgbaFrames : List (List Nat))
    (e : ConvError)
    (hsig : isPngSigBuf file = true)
    (hdec : o.decode file = .ok img)
    (hr : o.toRGBA8 img = .ok rgbaFrames)
    (hn : img.frames.length ≠ 0)
    (hlen : rgbaFrames.length = img.frames.length)
    (hbf : buildFramesV2 img.width img.height img.frames rgbaFrames
        opts.maxFrameDelayMs opts.onFrameError (List.range img.frames.length) = .error e) :
    tryUpngGifwrap o file opts = .error e := by
  have hmax : ¬(rgbaFrames.length ≠ max 1 img.frames.length) := by omega
  simp only [tryUpngGifwrap, hsig, hdec, hr, hbf, hmax, hn,
    Bool.true_eq_false, if_false, ite_false, reduceIte]

/-- Pipeline shape, animated input, frame loop succeeding with zero kept
frames: the conversion fails with the no-valid-frames error before any
encode or write. -/
theorem tryUpngGifwrap_animated_empty (o : UpngOracle) (file : List Nat)
    (opts : UpngGifwrapOpts) (img : UpngImage) (rgbaFrames : List (List Nat))
    (hsig : isPngSigBuf file = true)
    (hdec : o.decode file = .ok img)
    (hr : o.toRGBA8 img = .ok rgbaFrames)
    (hn : img.frames.length ≠ 0)
    (hlen : rgbaFrames.length = img.frames.length)
    (hbf : buildFramesV2 img.width img.height img.frames rgbaFrames
        opts.maxFrameDelayMs opts.onFrameError (List.range img.frames.length) = .ok []) :
    tryUpngGifwrap o file opts = .error .noValidFrames := by
  have hmax : ¬(rgbaFrames.length ≠ max 1 img.frames.length) := by omega
  simp only [tryUpngGifwrap, hsig, hdec, hr, hbf, hmax, hn,
    Bool.true_eq_false, if_false, ite_false, reduceIte]
  simp [hn]

/-- Pipeline shape, static input with a well-sized pixel buffer: the
conversion builds the single default-duration frame and reduces to the
encode call. -/
theorem tryUpngGifwrap_static (o : UpngOracle) (file : List Nat)
    (opts : UpngGifwrapOpts) (img : UpngImage) (rgba : List Nat)
    (hsig : isPngSigBuf file = true)
    (hdec : o.decode file = .ok img)
    (hfr : img.frames = [])
    (hr : o.toRGBA8 img = .ok [rgba])
    (hlen : rgba.length = img.width * img.height * 4) :
    tryUpngGifwrap o file opts =
      match o.encode [{ width := img.width, height := img.height, data := rgba, delayCentisecs := 10 }]
          { loopCount := opts.loopCount, maxColors := 256 } with
      | .error m => .error (.encodeFailed m)
      | .ok b =>
        .ok ([{ width := img.width, height := img.height, data := rgba, delayCentisecs := 10 }], b) := by
  simp only [tryUpngGifwrap, hsig, hdec, hr, hfr,
    Bool.true_eq_false, if_false, ite_false, reduceIte]
  simp [hlen]

/-- Every destination write of the external-tool strategy is tagged as the
tool's. -/
theorem tryFfmpeg_destWrites_tag (b : FfmpegBehavior) :
    ∀ w ∈ (tryFfmpeg b).destWrites, w.writer = .ffmpegTool := by
  obtain ⟨gen, use, wd, dc, ul⟩ := b
  cases gen <;> cases use <;> cases wd <;> simp [tryFfmpeg]

/-- When the in-process strategy fails, no in-process write ever reaches
the destination. -/
theorem apngToGif_error_upng_no_inProcess (ff : FfmpegBehavior)
    (ap : ToolBehavior) (p : String) (e : ConvError) :
    ({ writer := .inProcess, complete := true } : DestWrite) ∉
      (apngToGif ff (.error e) ap p).destWrites := by
  intro hmem
  cases hf : (tryFfmpeg ff).result with
  | ok _ =>
    simp only [apngToGif, hf] at hmem
    have := tryFfmpeg_destWrites_tag ff _ hmem
    simp at this
  | error _ =>
    cases ha : ap.res with
    | ok =>
      simp only [apngToGif, hf, ha, List.mem_append] at hmem
      rcases hmem with h | h
      · have := tryFfmpeg_destWrites_tag ff _ h
        simp at this
      · simp at h
    | fail msg =>
      simp only [apngToGif, hf, ha, List.mem_append] at hmem
      rcases hmem with h | h
      · have := tryFfmpeg_destWrites_tag ff _ h
        simp at this
      · cases hw : ap.failWritesDest <;> rw [hw] at h <;> simp at h

/-! ## C2 — skip-mode frame accounting -/

/-- C2: with `onFrameError = skip` on a decoded animated image of `n ≥ 2`
frames, exactly one of whose pixel buffers has a length other than
`width*height*4`, the in-process encoder hands the container encoder
exactly `n-1` frames; and when every pixel buffer is malformed it fails
with the no-valid-frames error — for every container encoder, so no
zero-frame output is ever written, and no in-process write reaches the
destination. -/
theorem inProcess_skip_frame_count :
    ∀ (o : UpngOracle) (file : List Nat) (opts : UpngGifwrapOpts)
      (img : UpngImage) (rgbaFrames : List (List Nat)),
      isPngSigBuf file = true →
      o.decode file = .ok img →
      o.toRGBA8 img = .ok rgbaFrames →
      rgbaFrames.length = img.frames.length →
      2 ≤ img.frames.length →
      opts.onFrameError = .skip →
      ((rgbaFrames.countP
          (fun r => !(r.length == img.width * img.height * 4)) = 1 →
        ∃ fs, fs.length = img.frames.length - 1 ∧
          tryUpngGifwrap o file opts =
            match o.encode fs { loopCount := opts.loopCount, maxColors := 256 } with
            | .error m => .error (.encodeFailed m)
            | .ok b => .ok (fs, b)) ∧
       ((∀ r ∈ rgbaFrames, r.length ≠ img.width * img.height * 4) →
        tryUpngGifwrap o file opts = .error .noValidFrames ∧
        ∀ (ff : FfmpegBehavior) (ap : ToolBehavior) (p : String),
          ({ writer := .inProcess, complete := true } : DestWrite) ∉
            (apngToGif ff (tryUpngGifwrap o file opts) ap p).destWrites)) := by
  intro o file opts img rgbaFrames hsig hdec hr hlen h2 hskip
  have hn0 : img.frames.length ≠ 0 := by omega
  obtain ⟨fs, hbf, hfslen⟩ := buildFramesV2_skip_count img.width img.height
    img.frames rgbaFrames opts.maxFrameDelayMs
  rw [hlen] at hbf
  rw [← hskip] at hbf
  constructor
  · intro hbad
    have hadd := countP_not_add
      (fun r => !(r.length == img.width * img.height * 4)) rgbaFrames
    have hcongr : rgbaFrames.countP
        (fun a => !(!(a.length == img.width * img.height * 4))) =
        rgbaFrames.countP (fun a => a.length == img.width * img.height * 4) :=
      List.countP_congr (fun x _ => by simp)
    have hgood : rgbaFrames.countP
        (fun r => r.length == img.width * img.height * 4) =
        img.frames.length - 1 := by omega
    refine ⟨fs, by omega, ?_⟩
    exact tryUpngGifwrap_animated_ok o file opts img rgbaFrames fs hsig hdec hr
      hn0 hlen hbf (by omega)
  · intro hall
    have hgood : rgbaFrames.countP
        (fun r => r.length == img.width * img.height * 4) = 0 :=
      List.countP_eq_zero.mpr (fun a ha => by simp [hall a ha])
    have hfs0 : fs = [] := List.length_eq_zero.mp (by omega)
    rw [hfs0] at hbf
    have herr := tryUpngGifwrap_animated_empty o file opts img rgbaFrames hsig
      hdec hr hn0 hlen hbf
    refine ⟨herr, fun ff ap p => ?_⟩
    rw [herr]
    exact apngToGif_error_upng_no_inProcess ff ap p .noValidFrames

/-- Witness for C2: the two-frame fixture with one malformed buffer
converts successfully under a skipping encoder — exercising the `n-1`
branch of the theorem on a concrete input. -/
theorem inProcess_skip_frame_count_witness :
    (tryUpngGifwrap demoOracleSkip demoFile { onFrameError := .skip }).isOk = true := by
  obtain ⟨fs, hlen, heq⟩ :=
    (inProcess_skip_frame_count demoOracleSkip demoFile { onFrameError := .skip }
      demoImgSkip demoRgbaSkip (by decide) rfl rfl (by decide) (by decide) rfl).1
      (by decide)
  rw [heq]
  rfl

/-! ## C5 — static input yields one default-duration frame -/

/-- C5: a valid static decode (zero animation frames, one pixel buffer of
length `width*height*4`) makes the in-process encoder hand the container
encoder exactly one frame whose delay is the documented default of 10
centiseconds (100 ms); consequently every successful conversion output of
such an input has exactly one frame with that delay. -/
theorem inProcess_static_default_duration :
    ∀ (o : UpngOracle) (file : List Nat) (opts : UpngGifwrapOpts)
      (img : UpngImage) (rgba : List Nat),
      isPngSigBuf file = true →
      o.decode file = .ok img →
      img.frames = [] →
      o.toRGBA8 img = .ok [rgba] →
      rgba.length = img.width * img.height * 4 →
      tryUpngGifwrap o file opts =
        (match o.encode
            [{ width := img.width, height := img.height, data := rgba, delayCentisecs := 10 }]
            { loopCount := opts.loopCount, maxColors := 256 } with
         | .error m => .error (.encodeFailed m)
         | .ok b =>
           .ok ([{ width := img.width, height := img.height, data := rgba, delayCentisecs := 10 }], b)) ∧
      (∀ frames bytes, tryUpngGifwrap o file opts = .ok (frames, bytes) →
        frames.length = 1 ∧ ∀ fr ∈ frames, fr.delayCentisecs = 10) := by
  intro o file opts img rgba hsig hdec hfr hr hlen
  have hpipe := tryUpngGifwrap_static o file opts img rgba hsig hdec hfr hr hlen
  refine ⟨hpipe, fun frames bytes hok => ?_⟩
  rw [hpipe] at hok
  cases henc : o.encode
      [{ width := img.width, height := img.height, data := rgba, delayCentisecs := 10 }]
      { loopCount := opts.loopCount, maxColors := 256 } with
  | error m => rw [henc] at hok; simp at hok
  | ok b =>
    rw [henc] at hok
    simp at hok
    obtain ⟨hfr2, -⟩ := hok
    rw [← hfr2]
    exact ⟨rfl, by simp⟩

/-- Witness for C5: the static fixture converts to a single 10-centisecond
frame. -/
theorem inProcess_static_default_duration_witness :
    tryUpngGifwrap demoOracleStatic demoFile {} =
      .ok ([{ width := 1, height := 1, data := demoRgbaStatic, delayCentisecs := 10 }], [0]) := by
  have h := (inProcess_static_default_duration demoOracleStatic demoFile {}
    demoImgStatic demoRgbaStatic (by decide) rfl rfl rfl (by decide)).1
  rw [h]
  rfl

/-! ## C6 — the PNG signature gate -/

/-- With a valid signature the in-process path can fail in many ways, but
never with the signature error: that error is raised only by the gate. -/
theorem tryUpngGifwrap_not_sig_error (o : UpngOracle) (buf : List Nat)
    (opts : UpngGifwrapOpts) (hsig : isPngSigBuf buf = true) :
    tryUpngGifwrap o buf opts ≠ .error .notAPngSignature := by
  cases hdec : o.decode buf with
  | throws m => simp [tryUpngGifwrap, hsig, hdec]
  | badMeta => simp [tryUpngGifwrap, hsig, hdec]
  | ok img =>
    cases hr : o.toRGBA8 img with
    | error m => simp [tryUpngGifwrap, hsig, hdec, hr]
    | ok rgbaFrames =>
      by_cases hlen : rgbaFrames.length = max 1 img.frames.length
      case neg => simp [tryUpngGifwrap, hsig, hdec, hr, hlen]
      by_cases hfc : img.frames = []
      case pos =>
        cases hget : rgbaFrames[0]? with
        | none => simp [tryUpngGifwrap, hsig, hdec, hr, hlen, hfc, hget]
        | some rgba =>
          by_cases hsz : rgba.length = img.width * img.height * 4
          case neg => simp [tryUpngGifwrap, hsig, hdec, hr, hlen, hfc, hget, hsz]
          cases henc : o.encode
              [{ width := img.width, height := img.height, data := rgba, delayCentisecs := 10 }]
              { loopCount := opts.loopCount, maxColors := 256 } with
          | error m => simp [tryUpngGifwrap, hsig, hdec, hr, hlen, hfc, hget, hsz, henc]
          | ok b => simp [tryUpngGifwrap, hsig, hdec, hr, hlen, hfc, hget, hsz, henc]
      case neg =>
        cases hbf : buildFramesV2 img.width img.height img.frames rgbaFrames
            opts.maxFrameDelayMs opts.onFrameError (List.range img.frames.length) with
        | error e =>
          obtain ⟨i, hi⟩ := buildFramesV2_error_shape img.width img.height
            img.frames rgbaFrames opts.maxFrameDelayMs opts.onFrameError _ e hbf
          simp [tryUpngGifwrap, hsig, hdec, hr, hlen, hfc, hbf, hi]
        | ok fs =>
          by_cases h0 : fs = []
          case pos => simp [tryUpngGifwrap, hsig, hdec, hr, hlen, hfc, hbf, h0]
          cases henc : o.encode fs { loopCount := opts.loopCount, maxColors := 256 } with
          | error m => simp [tryUpngGifwrap, hsig, hdec, hr, hlen, hfc, hbf, h0, henc]
          | ok b => simp [tryUpngGifwrap, hsig, hdec, hr, hlen, hfc, hbf, h0, henc]

/-- The only error a single part_003 frame build can raise names its own
index. -/
theorem buildFrameP3_error_eq (w h : Nat) (meta : List FrameMeta)
    (rgbaFrames : List (List Nat)) (clamp : Option Nat) (i : Nat) (e : ConvError)
    (hb : buildFrameP3 w h meta rgbaFrames clamp i = .error e) :
    e = .buildFrameFailed i := by
  simp only [buildFrameP3] at hb
  split at hb
  · simp at hb
    exact hb.symm
  · split at hb
    · simp at hb
      exact hb.symm
    · simp at hb

/-- Every error of the part_003 frame loop names the offending frame
index. -/
theorem buildFramesP3_error_shape (w h : Nat) (meta : List FrameMeta)
    (rgbaFrames : List (List Nat)) (clamp : Option Nat) (mode : FrameErrorMode) :
    ∀ (ixs : List Nat) (e : ConvError),
      buildFramesP3 w h meta rgbaFrames clamp mode ixs = .error e →
      ∃ i, e = .buildFrameFailed i := by
  intro ixs
  induction ixs with
  | nil => intro e he; exact absurd he (by simp [buildFramesP3])
  | cons i rest ih =>
    intro e he
    rw [buildFramesP3] at he
    cases hb : buildFrameP3 w h meta rgbaFrames clamp i with
    | ok f =>
      rw [hb] at he
      cases hr : buildFramesP3 w h meta rgbaFrames clamp mode rest with
      | ok fs => rw [hr] at he; exact absurd he (by simp)
      | error e2 => rw [hr] at he; simp at he; exact he ▸ ih e2 hr
    | error e2 =>
      rw [hb] at he
      cases mode with
      | skip => exact ih e he
      | throwMode =>
        simp at he
        exact ⟨i, he ▸ buildFrameP3_error_eq w h meta rgbaFrames clamp i e2 hb⟩

/-- The part_003 core (which performs no signature check itself) never
raises the signature error. -/
theorem apngArrayBufferToGifBuffer_not_sig_error (o : UpngOracle)
    (ab : List Nat) (opts : GifOptions) :
    apngArrayBufferToGifBuffer o ab opts ≠ .error .notAPngSignature := by
  cases hdec : o.decode ab with
  | throws m => simp [apngArrayBufferToGifBuffer, hdec]
  | badMeta => simp [apngArrayBufferToGifBuffer, hdec]
  | ok img =>
    cases hr : o.toRGBA8 img with
    | error m => simp [apngArrayBufferToGifBuffer, hdec, hr]
    | ok rgbaFrames =>
      by_cases hlen : rgbaFrames.length = max 1 img.frames.length
      case neg => simp [apngArrayBufferToGifBuffer, hdec, hr, hlen]
      by_cases hfc : img.frames = []
      case pos =>
        cases hget : rgbaFrames[0]? with
        | none => simp [apngArrayBufferToGifBuffer, hdec, hr, hlen, hfc, hget]
        | some rgba =>
          by_cases hsz : rgba.length = img.width * img.height * 4
          case neg => simp [apngArrayBufferToGifBuffer, hdec, hr, hlen, hfc, hget, hsz]
          cases henc : o.encode
              [{ width := img.width, height := img.height, data := rgba, delayCentisecs := 10 }]
              { loopCount := if opts.loopRepeat = 0 then 0 else opts.loopRepeat,
                maxColors := gifwrapMaxColors opts.colorCount } with
          | error m => simp [apngArrayBufferToGifBuffer, hdec, hr, hlen, hfc, hget, hsz, henc]
          | ok b => simp [apngArrayBufferToGifBuffer, hdec, hr, hlen, hfc, hget, hsz, henc]
      case neg =>
        cases hbf : buildFramesP3 img.width img.height img.frames rgbaFrames
            opts.maxFrameDelayMs opts.onFrameError (List.range img.frames.length) with
        | error e =>
          obtain ⟨i, hi⟩ := buildFramesP3_error_shape img.width img.height
            img.frames rgbaFrames opts.maxFrameDelayMs opts.onFrameError _ e hbf
          simp [apngArrayBufferToGifBuffer, hdec, hr, hlen, hfc, hbf, hi]
        | ok fs =>
          by_cases h0 : fs = []
          case pos => simp [apngArrayBufferToGifBuffer, hdec, hr, hlen, hfc, hbf, h0]
          cases henc : o.encode fs
              { loopCount := if opts.loopRepeat = 0 then 0 else opts.loopRepeat,
                maxColors := gifwrapMaxColors opts.colorCount } with
          | error m => simp [apngArrayBufferToGifBuffer, hdec, hr, hlen, hfc, hbf, h0, henc]
          | ok b => simp [apngArrayBufferToGifBuffer, hdec, hr, hlen, hfc, hbf, h0, henc]

/-- C6: both in-process conversion paths fail with the signature error
exactly when the input buffer is shorter than 8 bytes or its first 8
bytes differ from the PNG signature `89 50 4E 47 0D 0A 1A 0A` — for every
decoder oracle, so the rejection happens before any decode attempt. -/
theorem inProcess_png_signature_gate :
    ∀ (o : UpngOracle) (buf : List Nat) (vOpts : UpngGifwrapOpts) (pOpts : GifOptions),
      (tryUpngGifwrap o buf vOpts = .error .notAPngSignature ↔
        ¬(8 ≤ buf.length ∧ buf.take 8 = PNG_SIG)) ∧
      (convertApngToGif o buf pOpts = .error .notAPngSignature ↔
        ¬(8 ≤ buf.length ∧ buf.take 8 = PNG_SIG)) := by
  intro o buf vOpts pOpts
  constructor
  · constructor
    · intro h hgood
      exact tryUpngGifwrap_not_sig_error o buf vOpts
        ((isPngSigBuf_iff buf).mpr hgood) h
    · intro hbad
      have hsig : isPngSigBuf buf = false := by
        cases hb : isPngSigBuf buf
        · rfl
        · exact absurd ((isPngSigBuf_iff buf).mp hb) hbad
      simp [tryUpngGifwrap, hsig]
  · constructor
    · intro h hgood
      have hsig : isPngSigBuf buf = true := (isPngSigBuf_iff buf).mpr hgood
      rw [convertApngToGif, hsig] at h
      simp only [Bool.true_eq_false, if_false, reduceIte] at h
      exact apngArrayBufferToGifBuffer_not_sig_error o buf pOpts h
    · intro hbad
      have hsig : isPngSigBuf buf = false := by
        cases hb : isPngSigBuf buf
        · rfl
        · exact absurd ((isPngSigBuf_iff buf).mp hb) hbad
      simp [convertApngToGif, hsig]

/-- Witness for C6: a 3-byte buffer with the wrong prefix is rejected by
both in-process paths. -/
theorem inProcess_png_signature_gate_witness :
    tryUpngGifwrap demoOracleStatic [1, 2, 3] {} = .error .notAPngSignature ∧
    convertApngToGif demoOracleStatic [1, 2, 3] {} = .error .notAPngSignature := by
  obtain ⟨h1, h2⟩ := inProcess_png_signature_gate demoOracleStatic [1, 2, 3] {} {}
  exact ⟨h1.mpr (by decide), h2.mpr (by decide)⟩

/-! ## C10 — palette size clamping -/

/-- Pipeline shape of the part_003 core on a valid static decode: the
conversion reduces to the encode call with the clamped palette size. -/
theorem apngArrayBufferToGifBuffer_static (o : UpngOracle) (ab : List Nat)
    (opts : GifOptions) (img : UpngImage) (rgba : List Nat)
    (hdec : o.decode ab = .ok img) (hfr : img.frames = [])
    (hr : o.toRGBA8 img = .ok [rgba])
    (hlen : rgba.length = img.width * img.height * 4) :
    apngArrayBufferToGifBuffer o ab opts =
      match o.encode
          [{ width := img.width, height := img.height, data := rgba, delayCentisecs := 10 }]
          { loopCount := if opts.loopRepeat = 0 then 0 else opts.loopRepeat,
            maxColors := gifwrapMaxColors opts.colorCount } with
      | .error m => .error (.encodeFailed m)
      | .ok b => .ok b := by
  simp only [apngArrayBufferToGifBuffer, hdec, hr, hfr, reduceIte]
  simp [hlen]

/-- C10: the palette size handed to the container encoder is
`max(2, min(256, colorCount))` with `colorCount` defaulting to 256;
out-of-range values such as 0, 1 or 1000 are silently clamped into
`[2, 256]` — the conversion still reduces to the encode call, never to a
validation error. -/
theorem gif_palette_clamp :
    ∀ (c : Nat) (o : UpngOracle) (ab : List Nat) (opts : GifOptions)
      (img : UpngImage) (rgba : List Nat),
      2 ≤ gifwrapMaxColors c ∧ gifwrapMaxColors c ≤ 256 ∧
      gifwrapMaxColors 0 = 2 ∧ gifwrapMaxColors 1 = 2 ∧
      gifwrapMaxColors 1000 = 256 ∧ gifwrapMaxColors 256 = 256 ∧
      ({} : GifOptions).colorCount = 256 ∧
      (o.decode ab = .ok img → img.frames = [] → o.toRGBA8 img = .ok [rgba] →
        rgba.length = img.width * img.height * 4 →
        apngArrayBufferToGifBuffer o ab opts =
          match o.encode
              [{ width := img.width, height := img.height, data := rgba, delayCentisecs := 10 }]
              { loopCount := if opts.loopRepeat = 0 then 0 else opts.loopRepeat,
                maxColors := max 2 (min 256 opts.colorCount) } with
          | .error m => .error (.encodeFailed m)
          | .ok b => .ok b) := by
  intro c o ab opts img rgba
  refine ⟨le_max_left 2 _, ?_, by decide, by decide, by decide, by decide, rfl, ?_⟩
  · unfold gifwrapMaxColors
    omega
  · intro h1 h2 h3 h4
    rw [apngArrayBufferToGifBuffer_static o ab opts img rgba h1 h2 h3 h4]
    rfl

/-- Witness for C10: with the out-of-range `colorCount = 1000`, the static
fixture still converts successfully (the value is clamped to 256, not
rejected). -/
theorem gif_palette_clamp_witness :
    apngArrayBufferToGifBuffer demoOracleStatic demoFile { colorCount := 1000 } = .ok [0] ∧
    gifwrapMaxColors 1000 = 256 := by
  obtain ⟨-, -, -, -, h1000, -, -, hpath⟩ := gif_palette_clamp 1000 demoOracleStatic
    demoFile { colorCount := 1000 } demoImgStatic demoRgbaStatic
  refine ⟨?_, h1000⟩
  rw [hpath rfl rfl rfl (by decide)]
  rfl

end BlogAssets
